import Mathlib

/-!
Verification of the mdxai schema-driven generation engine.

This file gives a shallow embedding of the core components of the
repository: the AI function registry (`src/aiProxy.ts`, lines 282-619, and
the `unnamed/part_018` variant), the schema translator
(`createZodSchema` / output-shape selection), the recursive
outline-then-expand generator (`unnamed/part_021`, third section), the
stream-based generator with its timeout race and quote handling
(`unnamed/part_021`, second section), and the frontmatter synthesizer
(`initializeASTData`).

External collaborators (the AI backend, the mdxld parser, the file
system) are modelled as explicit oracle parameters, so every function is
a pure Lean function of its inputs and the structure of each JS
try/catch is translated into explicit `Except` handling: `Except.error`
models an exception escaping to the caller.
-/

namespace Mdxai

/-! ## JavaScript error and value model -/

/-- Error taxonomy of `unnamed/part_014` (`errors.ts`): `ConfigurationError`,
`GenerationError` and `ParsingError` extend the base `Error`; `generic`
models a plain JavaScript `Error`. -/
inductive JSError where
  | generic (msg : String)
  | configuration (msg : String)
  | generation (msg : String)
  | parsing (msg : String)
deriving Repr, DecidableEq

/-- The `message` property: the subclasses of `unnamed/part_014` add a
distinguishing text before the message they are given. -/
def JSError.message : JSError → String
  | .generic m => m
  | .configuration m => "Configuration Error: " ++ m
  | .generation m => "Generation Error: " ++ m
  | .parsing m => "Parsing Error: " ++ m

def JSError.isGeneration : JSError → Bool
  | .generation _ => true
  | _ => false

def JSError.isParsing : JSError → Bool
  | .parsing _ => true
  | _ => false

/-- Whether an `Except` result is an escaping `GenerationError`. -/
def errIsGeneration {α : Type} : Except JSError α → Bool
  | .error e => e.isGeneration
  | .ok _ => false

/-- Untyped JavaScript/JSON values, as produced by `JSON.parse` and
`generateObject`. -/
inductive JSValue where
  | undef
  | null
  | bool (b : Bool)
  | num (n : Int)
  | str (s : String)
  | arr (xs : List JSValue)
  | obj (fields : List (String × JSValue))
deriving Repr

/-- A JavaScript object, as an ordered field list. -/
abbrev JSObj := List (String × JSValue)

/-- Property read `o[k]`. -/
def getField : JSObj → String → Option JSValue
  | [], _ => none
  | (k', v) :: rest, k => if k' = k then some v else getField rest k

/-- Property write `o[k] = v`: replaces the value in place if the key
exists, otherwise appends the key (JS insertion order). -/
def setField : JSObj → String → JSValue → JSObj
  | [], k, v => [(k, v)]
  | (k', v') :: rest, k, v =>
    if k' = k then (k, v) :: rest else (k', v') :: setField rest k v

/-- JS truthiness. -/
def jsTruthy : JSValue → Bool
  | .undef => false
  | .null => false
  | .bool b => b
  | .num n => n ≠ 0
  | .str s => s ≠ ""
  | .arr _ => true
  | .obj _ => true

/-- The JS `typeof` operator (arrays and `null` are `"object"`). -/
def jsTypeof : JSValue → String
  | .undef => "undefined"
  | .null => "object"
  | .bool _ => "boolean"
  | .num _ => "number"
  | .str _ => "string"
  | .arr _ => "object"
  | .obj _ => "object"

/-- String coercion `String(v)` / `v.toString()`. -/
def jsToString : JSValue → String
  | .undef => "undefined"
  | .null => "null"
  | .bool b => cond b "true" "false"
  | .num n => toString n
  | .str s => s
  | .arr _ => ""
  | .obj _ => "[object Object]"

/-- Truthiness of an optional string field (`undefined` and `''` are falsy). -/
def jsTruthyStrO : Option String → Bool
  | some s => s ≠ ""
  | none => false

/-- The JS idiom `x || d` on an optional string. -/
def jsOrStrO (o : Option String) (d : String) : String :=
  match o with
  | some s => if s = "" then d else s
  | none => d

/-- `Object.assign(target, v)`: merges the fields of an object, or the
index keys of an array, into the target. -/
def objectAssign (target : JSObj) (v : JSValue) : JSObj :=
  match v with
  | .obj fs => fs.foldl (fun acc kv => setField acc kv.1 kv.2) target
  | .arr xs => (xs.enum.map (fun p => (toString p.1, p.2))).foldl
      (fun acc kv => setField acc kv.1 kv.2) target
  | _ => target

/-- JS object spread `{...d, ...base}` as far as lookups are concerned:
entries of `base` win on key collision. -/
def mergeObj (d base : JSObj) : JSObj :=
  d.filter (fun kv => (getField base kv.1).isNone) ++ base

/-- `Array.prototype.join` with a separator. -/
def joinWith (sep : String) : List String → String
  | [] => ""
  | [a] => a
  | a :: rest => a ++ sep ++ joinWith sep rest

/-! ## Lookup lemmas for the object model -/

theorem getField_setField_same (o : JSObj) (k : String) (v : JSValue) :
    getField (setField o k v) k = some v := by
  induction o with
  | nil => simp [setField, getField]
  | cons kv rest ih =>
    by_cases h : kv.1 = k
    · simp [setField, getField, h]
    · simp [setField, getField, h, ih]

theorem getField_setField_other (o : JSObj) (k k' : String) (v : JSValue)
    (hne : k' ≠ k) : getField (setField o k' v) k = getField o k := by
  induction o with
  | nil => simp [setField, getField, hne]
  | cons kv rest ih =>
    by_cases h : kv.1 = k'
    · simp [setField, getField, h, hne]
    · by_cases h2 : kv.1 = k
      · have hkk : ¬ k = k' := fun hh => hne hh.symm
        simp [setField, getField, h, h2, hkk]
      · simp [setField, getField, h, h2, ih]

theorem getField_append_of_left_none (d base : JSObj) (k : String)
    (h : getField d k = none) : getField (d ++ base) k = getField base k := by
  induction d with
  | nil => simp
  | cons kv rest ih =>
    by_cases hk : kv.1 = k
    · simp [getField, hk] at h
    · simp only [getField, List.cons_append, hk, if_false] at h ⊢
      exact ih h

theorem getField_filter_none (d base : JSObj) (k : String)
    (h : (getField base k).isSome) :
    getField (d.filter (fun kv => (getField base kv.1).isNone)) k = none := by
  induction d with
  | nil => simp [getField]
  | cons kv rest ih =>
    by_cases hb : (getField base kv.1).isNone
    · by_cases hk : kv.1 = k
      · rw [hk] at hb
        rw [Option.isNone_iff_eq_none] at hb
        rw [hb] at h
        simp at h
      · simp only [List.filter_cons, hb, if_true, getField, hk, if_false]
        exact ih
    · simp only [List.filter_cons, hb, if_false]
      exact ih

/-- Looking up a key present in `base` through the spread `{...d, ...base}`
finds the `base` value. -/
theorem getField_mergeObj (d base : JSObj) (k : String) (v : JSValue)
    (h : getField base k = some v) : getField (mergeObj d base) k = some v := by
  unfold mergeObj
  rw [getField_append_of_left_none]
  · exact h
  · exact getField_filter_none d base k (by rw [h]; rfl)

/-! ## Schema translator (aiProxy.ts lines 175-191 and 515-531, 566-569;
part_018 lines 13-34 and 133-139) -/

/-- A JSON-Schema-like description: optional top-level `type`, optional
`properties` map, optional `items` schema. -/
inductive JSONSchema where
  | mk (type : Option String) (properties : Option (List (String × JSONSchema)))
       (items : Option JSONSchema)

def JSONSchema.type : JSONSchema → Option String
  | .mk t _ _ => t

def JSONSchema.properties : JSONSchema → Option (List (String × JSONSchema))
  | .mk _ p _ => p

def JSONSchema.items : JSONSchema → Option JSONSchema
  | .mk _ _ i => i

/-- The runtime validator tree built by `createZodSchema`. -/
inductive ZodType where
  | any
  | string
  | number
  | boolean
  | array (item : ZodType)
  | object (shape : List (String × ZodType))
deriving Repr

mutual

/-- `createZodSchema` of `aiProxy.ts` lines 175-191: `array` with `items`
recurses on the item schema, `object` with `properties` recurses per
property, scalars map to scalar validators, and anything else widens to
`z.any()`. -/
def createZodSchema : JSONSchema → ZodType
  | .mk (some "array") _ (some it) => .array (createZodSchema it)
  | .mk (some "object") (some props) _ => .object (createZodShape props)
  | .mk (some "string") _ _ => .string
  | .mk (some "number") _ _ => .number
  | .mk (some "boolean") _ _ => .boolean
  | .mk _ _ _ => .any

def createZodShape : List (String × JSONSchema) → List (String × ZodType)
  | [] => []
  | (k, p) :: rest => (k, createZodSchema p) :: createZodShape rest

end

/-- The top-level `type` that `zodToJsonSchema` reports for a converted
validator (`z.any()` converts to a schema with no `type` key). -/
def zodToJsonSchemaType : ZodType → Option String
  | .any => none
  | .string => some "string"
  | .number => some "number"
  | .boolean => some "boolean"
  | .array _ => some "array"
  | .object _ => some "object"

/-- Lines 566-569 of `aiProxy.ts`: the output mode recomputed from the
converted schema (`'array'` when it reports type `array`, `'object'` for
any other converted schema, `'no-schema'` when no validator was built). -/
def aiProxyOutput : Option ZodType → String
  | none => "no-schema"
  | some z => if zodToJsonSchemaType z = some "array" then "array" else "object"

/-- The complete schema handling of `aiProxy.ts` lines 515-531 plus
566-569: when `mdxData.schema?.type` is truthy the type must be
`'object'` or `'array'` (otherwise the invocation returns an error
result), else no validator is built; the output mode is then recomputed
from the converted validator. `Except.error` is the early error-result
return of lines 523-526. -/
def aiProxySelectShape (schema : Option JSONSchema) : Except String String :=
  match schema with
  | some sc =>
    match sc.type with
    | some t =>
      if t ≠ "" then
        if ¬(t = "object" ∨ t = "array") then
          .error ("Invalid schema type: " ++ t ++ ". Must be \x27object\x27 or \x27array\x27")
        else
          .ok (aiProxyOutput (some (createZodSchema sc)))
      else
        .ok (aiProxyOutput none)
    | none => .ok (aiProxyOutput none)
  | none => .ok (aiProxyOutput none)

/-- Lines 133-139 of `unnamed/part_018`: the output-shape selector.
`'object'` by default, `'no-schema'` when no schema is supplied,
`'array'` when the top-level `type` is `array`. -/
def part018OutputType (schema : Option JSONSchema) : String :=
  match schema with
  | none => "no-schema"
  | some s => if s.type = some "array" then "array" else "object"

def isArrV : JSValue → Bool
  | .arr _ => true
  | _ => false

def isStrV : JSValue → Bool
  | .str _ => true
  | _ => false

def isNullV : JSValue → Bool
  | .null => true
  | _ => false

def isUndefV : JSValue → Bool
  | .undef => true
  | _ => false

/-! ## Function registry: `aiProxy.ts` lines 282-619

The proxied call is modelled as a pure function of an environment
carrying the observable state and the outcomes of every external
operation: the runtime flag, the backing file's content, the `mdxld`
parse outcome, the AI configuration read from the environment, and the
`generateObject` outcome.  `Except.error` in the intermediate results
models a JavaScript exception in flight; the outer `try/catch` of the
source converts every one of them into an `{error}` result object. -/

/-- Frontmatter fields read from the parsed specification file
(`AIFunctionData`). -/
structure AIFunctionData where
  model : Option String
  system : Option String
  schema : Option JSONSchema

/-- One observed `generateObject` round trip: the output mode passed and
the model identifier of the adapter it was given. -/
structure GenCallInfo where
  output : String
  model : String
deriving Repr, DecidableEq

/-- Environment of one registry invocation (aiProxy variant). -/
structure ProxyEnv where
  isNode : Bool
  file : Option String
  mdxParse : String → Except String (Option AIFunctionData)
  apiKey : Option String
  baseURL : Option String
  envModel : Option String
  genOutcome : Except String JSValue

/-- Observable outcome of one registry invocation: the returned result
object, the backing file's content afterwards, and the backend calls
performed. -/
structure InvokeOut where
  result : JSObj
  file : Option String
  calls : List GenCallInfo
deriving Repr

/-- The `DEFAULT_FRONTMATTER` template of `aiProxy.ts` lines 252-275. -/
def DEFAULT_FRONTMATTER_PROXY : String :=
  "---\n$type: AIFunction\n$context: https://schema.org/\nmodel: gpt-4o\nsystem: \x27You are an AI assistant helping with content generation\x27\nmetadata:\n  keywords: []\n  category: ai-function\n  properties:\n    version: \x271.0.0\x27\n    generator: \x27mdxai\x27\nschema:\n  type: object\n  properties:\n    content:\n      type: string\n      description: \x27The generated content\x27\n  required: [\x27content\x27]\noutput:\n  content: \x27Generated content will appear here\x27\n---\n\n<!-- Add your custom content or instructions here -->\n"

/-- The `DEFAULT_FRONTMATTER` template of `unnamed/part_018` lines 53-62. -/
def DEFAULT_FRONTMATTER_018 : String :=
  "---\nmodel: gpt-4o\nsystem: Test system prompt\nschema:\n  type: object\n  properties:\n    content:\n      type: string\n  required: [content]\n---"

/-- The result object is initialised to `{ content: '' }` (line 286). -/
def initialResult : JSObj := [("content", .str "")]

/-- The test `mdxData.schema?.type === 'array'` of line 599. -/
def schemaTypeIsArray : Option JSONSchema → Bool
  | some sc => decide (sc.type = some "array")
  | none => false

/-- Lines 327-330 of `aiProxy.ts`: the selected model is the frontmatter
`model` when it starts with `@cf/`, otherwise
`config.aiConfig.defaultModel || 'gpt-4o-mini'`, where `getConfig()`
resolves `defaultModel` to `process.env.AI_MODEL || 'gpt-4o-mini'`. -/
def proxySelModel (m : Option String) (envModel : Option String) : String :=
  let defaultModel := jsOrStrO envModel "gpt-4o-mini"
  match m with
  | some s => if s.startsWith "@cf/" then s else jsOrStrO (some defaultModel) "gpt-4o-mini"
  | none => jsOrStrO (some defaultModel) "gpt-4o-mini"

/-- The content at the conventional path after the creation step of
lines 297-300 (`readFile` of line 303 reads this). -/
def proxyContent (file : Option String) : String :=
  match file with
  | none => DEFAULT_FRONTMATTER_PROXY
  | some c => c

/-- Lines 303-610 of `aiProxy.ts`: everything after the file creation
step. Returns the result of the body (`Except.error` models an exception
still in flight towards the outer catch) together with the
`generateObject` calls performed. -/
def aiProxyMain (env : ProxyEnv) (content : String) :
    Except JSError JSObj × List GenCallInfo :=
  -- lines 310-321: inner parse try/catch
  match env.mdxParse content with
  | .error e =>
    (.ok (setField initialResult "error" (.str ("Failed to process AI function: " ++ e))), [])
  | .ok none =>
    (.ok (setField initialResult "error" (.str "Invalid MDX file: No frontmatter found")), [])
  | .ok (some mdxData) =>
    -- lines 323-325: getConfig / validateConfig (throws a plain Error)
    if ¬ (jsTruthyStrO env.apiKey ∨ jsTruthyStrO env.baseURL) then
      (.error (.generic "No AI provider configuration found. Set OPENAI_API_KEY or AI_GATEWAY environment variable."), [])
    else
      -- lines 327-330
      let selectedModel := proxySelModel mdxData.model env.envModel
      -- inner try of lines 513-610: schema validation and generation
      match aiProxySelectShape mdxData.schema with
      | .error msg =>
        -- early error-result return of lines 523-526
        (.ok (setField initialResult "error" (.str msg)), [])
      | .ok output =>
        let call : GenCallInfo := { output := output, model := selectedModel }
        match env.genOutcome with
        | .error e =>
          -- catch of lines 608-610
          (.ok (setField initialResult "error"
            (.str ("Failed to generate content: " ++ e))), [call])
        | .ok response =>
          -- result shaping of lines 598-607
          let res :=
            if schemaTypeIsArray mdxData.schema ∧ isArrV response then
              setField initialResult "items" response
            else if jsTypeof response = "object" ∧ ¬ isNullV response then
              objectAssign initialResult response
            else if ¬ isUndefV response then
              setField initialResult "content" (.str (jsToString response))
            else
              setField initialResult "error" (.str "Invalid response format received")
          (.ok res, [call])

/-- The body of the outer try of `aiProxy.ts` lines 288-613: the runtime
guard, the lazy file creation of lines 293-300, then `aiProxyMain`. -/
def aiProxyTry (env : ProxyEnv) (fnName : String) (args : JSObj) :
    Except JSError JSObj × Option String × List GenCallInfo :=
  if env.isNode = false then
    (.ok (setField initialResult "error"
      (.str "AI proxy is only supported in Node.js environment")), env.file, [])
  else
    let rc := aiProxyMain env (proxyContent env.file)
    (rc.1, some (proxyContent env.file), rc.2)

/-- The whole invocation, lines 284-617: the outer catch converts any
escaping exception into a result carrying an `error` string, and line
616 always returns the result object. -/
def aiProxyRun (env : ProxyEnv) (fnName : String) (args : JSObj) : InvokeOut :=
  let rfc := aiProxyTry env fnName args
  { result :=
      match rfc.1 with
      | .ok o => o
      | .error e => setField initialResult "error"
          (.str ("Failed to process AI function: " ++ e.message))
    file := rfc.2.1
    calls := rfc.2.2 }

/-- The invocation as seen by the caller: `Except.error` would model an
exception escaping `invoke`. -/
def aiProxyInvoke (env : ProxyEnv) (fnName : String) (args : JSObj) :
    Except JSError InvokeOut :=
  .ok (aiProxyRun env fnName args)

def aiProxyFileAfter (env : ProxyEnv) (fnName : String) (args : JSObj) : Option String :=
  (aiProxyRun env fnName args).file

/-! ## Function registry: `unnamed/part_018` -/

/-- Environment of one registry invocation (part_018 variant; the model
adapter there is built locally, so no AI configuration is read). -/
structure Part018Env where
  isNode : Bool
  file : Option String
  mdxParse : String → Except String (Option AIFunctionData)
  genOutcome : Except String JSValue

/-- Observable outcome for the part_018 variant, whose result can be
reassigned wholesale (line 171), hence a `JSValue`. -/
structure InvokeOut018 where
  result : JSValue
  file : Option String
  calls : List GenCallInfo
deriving Repr

/-- File content read after the creation step of part_018 lines 87-95. -/
def part018Content (file : Option String) : String :=
  match file with
  | none => DEFAULT_FRONTMATTER_018
  | some c => c

/-- Lines 94-172 of `unnamed/part_018`: parse, frontmatter validation,
output-shape selection, the single generation round trip and result
shaping. `Except.error` models an exception heading for the catch of
lines 173-176. -/
def part018Main (env : Part018Env) (content : String) :
    Except JSError JSValue × List GenCallInfo :=
  match env.mdxParse content with
  | .error e => (.error (.generic e), [])
  | .ok none => (.error (.generic "Invalid MDX file: No frontmatter found"), [])
  | .ok (some d) =>
    -- lines 111-113: model and system are required
    if ¬ jsTruthyStrO d.model ∨ ¬ jsTruthyStrO d.system then
      (.error (.generic "Missing required frontmatter fields: model and system"), [])
    else
      -- lines 133-139
      let outputType := part018OutputType d.schema
      let call : GenCallInfo := { output := outputType, model := d.model.getD "" }
      match env.genOutcome with
      | .error e => (.error (.generic e), [call])
      | .ok res =>
        -- lines 165-172
        let shaped : JSValue :=
          if outputType = "array" ∧ isArrV res then .obj [("items", res)]
          else if outputType = "no-schema" ∧ isStrV res then .obj [("content", res)]
          else if jsTypeof res = "object" ∧ ¬ isNullV res then res
          else .obj []
        (.ok shaped, [call])

/-- The try of part_018 lines 81-172: directory and file creation, then
`part018Main`. -/
def part018Try (env : Part018Env) (args : JSObj) :
    Except JSError JSValue × Option String × List GenCallInfo :=
  let rc := part018Main env (part018Content env.file)
  (rc.1, some (part018Content env.file), rc.2)

/-- The whole part_018 invocation (lines 73-178): the runtime guard
returns an error result before the try; the catch of lines 173-176
converts every exception into an `{error}` result; line 178 returns. -/
def part018Run (env : Part018Env) (args : JSObj) : InvokeOut018 :=
  if env.isNode = false then
    { result := .obj [("error", .str "AI proxy is only supported in Node.js environment")]
      file := env.file
      calls := [] }
  else
    let rfc := part018Try env args
    match rfc.1 with
    | .ok v => { result := v, file := rfc.2.1, calls := rfc.2.2 }
    | .error e =>
      { result := .obj [("error", .str ("Failed to process AI function: " ++ e.message))]
        file := rfc.2.1
        calls := rfc.2.2 }

def part018Invoke (env : Part018Env) (args : JSObj) : Except JSError InvokeOut018 :=
  .ok (part018Run env args)

def part018FileAfter (env : Part018Env) (args : JSObj) : Option String :=
  (part018Run env args).file

/-! ## Frontmatter synthesizer and recursive outline generator
(`unnamed/part_021`, third section, lines 229-619) -/

/-- A body node of the parsed document (opaque beyond its tag and raw
content). -/
structure MDXNode where
  type : String
  value : String
deriving Repr, DecidableEq

/-- The AST produced by `mdxld/ast` `parse`: a node tag, the frontmatter
data, and the body children. -/
structure MDXAst where
  type : String
  data : Option JSObj
  children : List MDXNode
deriving Repr

/-- `{title, description}` entries of a generated outline. -/
structure OutlineItem where
  title : String
  description : Option String
deriving Repr, DecidableEq

/-- The `baseData` object of `initializeASTData` (lines 244-257). -/
def baseDataFor (ty selectedModel : String) : JSObj :=
  [("$type", .str ("https://schema.org/" ++ ty)),
   ("@type", .str ("https://schema.org/" ++ ty)),
   ("$context", .str "https://schema.org"),
   ("@context", .str "https://schema.org"),
   ("metadata", .obj
     [("keywords", .arr [.str ty.toLower, .str "mdx", .str "content"]),
      ("category", .str ty),
      ("properties", .obj
        [("version", .str "1.0.0"),
         ("generator", .str ("mdxai-" ++ selectedModel))])])]

/-- `initializeASTData` of lines 239-281: marks the root, merges
`baseData` over any existing frontmatter (the spread of line 260, where
`baseData` wins), and populates the children from a re-parse of the
content, falling back to a single text node. The parse of line 266 is
not wrapped in a try, so its failure escapes (`Except.error`). -/
def initializeASTData (parseO : String → Except JSError MDXAst)
    (ast : MDXAst) (ty selectedModel content : String) : Except JSError MDXAst :=
  let data :=
    match ast.data with
    | some d => mergeObj d (baseDataFor ty selectedModel)
    | none => baseDataFor ty selectedModel
  if content = "" then
    .ok { type := "root", data := some data, children := [] }
  else
    match parseO content with
    | .error e => .error e
    | .ok parsedContent =>
      match parsedContent.children with
      | c :: cs => .ok { type := "root", data := some data, children := c :: cs }
      | [] => .ok { type := "root", data := some data,
                    children := [{ type := "text", value := content }] }

/-- Field lookup through the AST's frontmatter data. -/
def dataField (a : MDXAst) (k : String) : Option JSValue :=
  a.data.bind (fun d => getField d k)

/-- Environment of the chunk-3 generator: the AI configuration read from
the environment, the backend text for the i-th `doGenerate` call
(`none`/`''` model a missing or empty `result.text`), the `JSON.parse`
outcome on an outline string (`Except.error` is a parse exception, and
`.ok none` a parsed falsy value such as `null`), and the `mdxld/ast`
parse oracle. -/
structure GenEnv where
  apiKey : Option String
  baseURL : Option String
  backend : Nat → Option String
  jsonParse : String → Except String (Option (List OutlineItem))
  mdxldParse : String → Except JSError MDXAst

/-- The kinds of backend calls the generator makes. -/
inductive CallKind where
  | outline
  | content
deriving Repr, DecidableEq

/-- `validateConfig` (config.ts lines 52-56): at least one of the API
key and the base URL must be truthy. -/
def configOk (env : GenEnv) : Bool :=
  jsTruthyStrO env.apiKey || jsTruthyStrO env.baseURL

/-- The message `validateConfig` throws (a plain `Error`). -/
def cfgErrorMsg : String :=
  "No AI provider configuration found. Set OPENAI_API_KEY or AI_GATEWAY environment variable."

/-- Model selection of lines 410-412 (and 340-341): with the override of
`getConfig({aiConfig: {..., defaultModel: model}})`, the configured
default collapses to the call's `model` argument, so the selection is
`model && model.startsWith('@cf/') ? model : model` then
`|| 'gpt-4o-mini'`. -/
def selModel (model : Option String) : String :=
  let dflt := model
  let sel :=
    match model with
    | some m => if m ≠ "" ∧ m.startsWith "@cf/" then some m else dflt
    | none => dflt
  jsOrStrO sel "gpt-4o-mini"

/-- Line 425: the composite outline text. -/
def outlineText (items : List OutlineItem) : String :=
  joinWith "\n\n" (items.map (fun it => it.title ++ "\n" ++ (it.description.getD "")))

/-- `generateOutline` of lines 329-374: validates the configuration,
performs one backend call, throws a plain `Error` on empty text (lines
364-366) and a `ParsingError` on invalid JSON (lines 368-373). The
second component lists the backend calls performed. -/
def generateOutline (env : GenEnv) (k : Nat) (prompt ty : String)
    (model : Option String) (depth : Nat) :
    Except JSError (Option (List OutlineItem)) × List CallKind :=
  let _outlinePrompt :=
    "Generate a structured outline for " ++ ty ++ " content about: " ++ prompt ++
    "\nInclude title and brief description for each section. Format as a JSON array of objects with \x27title\x27 and \x27description\x27 fields.\nKeep the structure flat for depth " ++
    toString depth ++ ", focusing on main sections only."
  let _selectedModel := selModel model
  if ¬ configOk env then
    (.error (.generic cfgErrorMsg), [])
  else
    let t := env.backend k
    if ¬ jsTruthyStrO t then
      (.error (.generic "Failed to generate outline"), [.outline])
    else
      match env.jsonParse (t.getD "") with
      | .error e => (.error (.parsing ("Failed to parse outline JSON: " ++ e)), [.outline])
      | .ok v => (.ok v, [.outline])

/-- The frontmatter template of lines 530-551. -/
def mdxFrontmatter (prompt ty selectedModel : String) : String :=
  joinWith "\n"
    ["---",
     "$type: https://schema.org/" ++ ty,
     "$schema: https://mdx.org.ai/schema.json",
     "$context: https://schema.org",
     "model: " ++ selectedModel,
     "title: " ++ ty ++ " about " ++ prompt,
     "description: Generated " ++ ty.toLower ++ " content about " ++ prompt,
     "\x27@type\x27: https://schema.org/" ++ ty,
     "\x27@context\x27: https://schema.org",
     "metadata:",
     "  keywords:",
     "    - " ++ ty.toLower,
     "    - mdx",
     "    - content",
     "  category: " ++ ty,
     "  properties:",
     "    version: 1.0.0",
     "    generator: mdxai-" ++ selectedModel,
     "---"]

/-- The body template of lines 554-567. -/
def mdxBody (prompt ty : String) : String :=
  joinWith "\n"
    ["",
     "# " ++ prompt,
     "",
     "This is a generated " ++ ty.toLower ++ " about " ++ prompt ++ ".",
     "",
     "## Overview",
     "",
     "Detailed information about " ++ prompt ++ ".",
     "",
     "## Details",
     "",
     "More specific details about " ++ prompt ++ "."]

/-- Line 570: the full generated document. The backend text does not
occur in it. -/
def mdxTemplate (prompt ty selectedModel : String) : String :=
  mdxFrontmatter prompt ty selectedModel ++ "\n" ++ mdxBody prompt ty

/-- The result record of the chunk-3 generator. -/
structure GenResult where
  progressMessage : String
  content : String
  ast : Option MDXAst
  outline : Option (List OutlineItem)
  progress : Nat
deriving Repr

/-- The direct generation block of lines 440-590: one backend text call,
`GenerationError` on empty text (lines 523-525), then the fixed document
template and the AST synthesis of line 580 (not inside a try, so parse
failures escape). `outlineVar` is the `outline` local returned at line
587. -/
def directGen (env : GenEnv) (k : Nat) (prompt ty selectedModel : String)
    (outlineVar : Option (List OutlineItem)) :
    Except JSError GenResult × List CallKind :=
  let t := env.backend k
  if ¬ jsTruthyStrO t then
    (.error (.generation "Failed to generate MDX content"), [.content])
  else
    let mdxContent := mdxTemplate prompt ty selectedModel
    if mdxContent = "" then
      (.error (.generic "No MDX content generated"), [.content])
    else
      match env.mdxldParse mdxContent with
      | .error e => (.error e, [.content])
      | .ok ast =>
        match initializeASTData env.mdxldParse ast ty selectedModel mdxContent with
        | .error e => (.error e, [.content])
        | .ok contentAst =>
          (.ok { progressMessage := "Generating MDX\n", content := mdxContent,
                 ast := some contentAst, outline := outlineVar, progress := 100 },
           [.content])

/-- Lines 592-618: the final parse of recursion-produced content; its
try/catch returns the content without an AST when parsing fails. -/
def finalParse (env : GenEnv) (ty selectedModel content : String) : GenResult :=
  match (env.mdxldParse content).bind
      (fun a => initializeASTData env.mdxldParse a ty selectedModel content) with
  | .ok a2 =>
    { progressMessage := "Generating MDX\n", content := content, ast := some a2,
      outline := none, progress := 100 }
  | .error _ =>
    { progressMessage := "Generated MDX content successfully (AST parsing failed)",
      content := content, ast := none, outline := none, progress := 100 }

/-- Options of `generateMDX` (lines 304-312 with the defaults of line
377 applied). -/
structure GenOptions where
  prompt : String
  model : Option String
  type : String
  recursive : Bool
  depth : Nat
deriving Repr

/-- A fresh `generateMDX` invocation with `recursive=false`: the
configuration check of lines 379-386 followed by the direct generation
block (the `if (!mdxContent)` of line 440 is taken since nothing set the
content). -/
def generateMDXFalse (env : GenEnv) (k : Nat) (prompt ty : String) (model : Option String) :
    Except JSError GenResult × List CallKind :=
  if ¬ configOk env then
    (.error (.generic cfgErrorMsg), [])
  else
    directGen env k prompt ty (selModel model) none

/-- `generateMDX` of lines 376-619. In the `recursive` branch (lines
418-437) the outline is fetched, and the sub-call of lines 428-433 is a
`generateMDX` invocation with `recursive: false` — written here as
`generateMDXFalse`, which `generateMDX_false_eq` proves equal to such an
invocation. The second component lists the backend calls in order. -/
def generateMDX (env : GenEnv) (k : Nat) (opts : GenOptions) :
    Except JSError GenResult × List CallKind :=
  if ¬ configOk env then
    (.error (.generic cfgErrorMsg), [])
  else
    let selectedModel := selModel opts.model
    match opts.recursive with
    | false => directGen env k opts.prompt opts.type selectedModel none
    | true =>
      let oRes := generateOutline env k opts.prompt opts.type opts.model opts.depth
      let cs := oRes.2
      match oRes.1 with
      | .error e => (.error e, cs)
      | .ok outlineVal =>
        match outlineVal with
        | some items =>
          let contentPrompt :=
            "Generate detailed MDX content following this outline:\n\n" ++ outlineText items
          let sub := generateMDXFalse env (k + cs.length) contentPrompt opts.type opts.model
          let cs2 := sub.2
          match sub.1 with
          | .error e => (.error e, cs ++ cs2)
          | .ok subr =>
            if subr.content = "" then
              let d := directGen env (k + cs.length + cs2.length) opts.prompt opts.type
                  selectedModel (some items)
              (d.1, cs ++ cs2 ++ d.2)
            else
              (.ok (finalParse env opts.type selectedModel subr.content), cs ++ cs2)
        | none =>
          let d := directGen env (k + cs.length) opts.prompt opts.type selectedModel none
          (d.1, cs ++ d.2)

/-- The sub-call of lines 428-433 is exactly a `recursive=false`
invocation of the same pipeline. -/
theorem generateMDX_false_eq (env : GenEnv) (k : Nat) (p t : String)
    (m : Option String) (d : Nat) :
    generateMDX env k { prompt := p, model := m, type := t, recursive := false, depth := d } =
      generateMDXFalse env k p t m := rfl

/-! ## The `src/index.ts` generator (its non-recursive path, for the
content-determinism claim) -/

/-- Environment of the `src/index.ts` generator: configuration comes
straight from the process environment. -/
structure IndexEnv where
  apiKey : Option String
  gateway : Option String
  envModel : Option String
  backend : Nat → Option String
  mdxldParse : String → Except JSError MDXAst

/-- The template of `src/index.ts` lines 225-252 (the frontmatter and
body are concatenated directly at line 252). -/
def indexTemplate (prompt ty model : String) : String :=
  joinWith "\n"
    ["---",
     "$type: " ++ ty,
     "$schema: https://mdx.org.ai/schema.json",
     "model: " ++ model,
     "title: " ++ ty ++ " about " ++ prompt,
     "description: Generated " ++ ty.toLower ++ " content about " ++ prompt,
     "---"] ++
  joinWith "\n"
    ["",
     "# " ++ prompt,
     "",
     "This is a generated " ++ ty.toLower ++ " about " ++ prompt ++ ".",
     "",
     "## Overview",
     "",
     "Detailed information about " ++ prompt ++ ".",
     "",
     "## Details",
     "",
     "More specific details about " ++ prompt ++ "."]

/-- Result record of the `src/index.ts` generator. -/
structure IndexResult where
  progressMessage : String
  content : String
  ast : Option MDXAst
  outline : Option (List OutlineItem)
deriving Repr

/-- The non-recursive path of `src/index.ts` `generateMDX` (lines
88-94 and 137-268): the model defaults to `AI_MODEL || 'gpt-4o-mini'`
(line 89), a missing provider configuration throws (lines 92-94), empty
backend text throws a plain `Error` (lines 218-220), and otherwise the
fixed template is returned; the parse of line 262 is not inside a try. -/
def indexGenerateMDXFalse (env : IndexEnv) (k : Nat) (prompt ty : String)
    (modelOpt : Option String) : Except JSError IndexResult × List CallKind :=
  let model :=
    match modelOpt with
    | some m => m
    | none => jsOrStrO env.envModel "gpt-4o-mini"
  if ¬ (jsTruthyStrO env.apiKey || jsTruthyStrO env.gateway) then
    (.error (.generic cfgErrorMsg), [])
  else
    let t := env.backend k
    if ¬ jsTruthyStrO t then
      (.error (.generic "Failed to generate MDX content"), [.content])
    else
      let mdxContent := indexTemplate prompt ty model
      if mdxContent = "" then
        (.error (.generic "No MDX content generated"), [.content])
      else
        match env.mdxldParse mdxContent with
        | .error e => (.error e, [.content])
        | .ok a =>
          (.ok { progressMessage := "Generating MDX\n", content := mdxContent,
                 ast := some a, outline := none }, [.content])

/-! ## Stream-based generator (`unnamed/part_021`, second section,
lines 42-228): timeout handling, cleanup and type-quote stripping -/

/-- The character class `["']` of the regexes at lines 166, 169, 186. -/
def isQuoteChar (c : Char) : Bool := c = '"' ∨ c = Char.ofNat 39

/-- Removes one leading quote character, as the anchored alternative
`^["']` matches at most once. -/
def dropLeadQuote : List Char → List Char
  | [] => []
  | c :: rest => if isQuoteChar c then rest else c :: rest

/-- `.replace(/^["']|["']$/g, '')`: one leading and one trailing quote
character are removed (the trailing match is found after the leading
one was consumed). -/
def stripEdgeQuotes (s : String) : String :=
  String.mk ((dropLeadQuote (dropLeadQuote s.data).reverse).reverse)

/-- Fuel-based global replacement with JS semantics: leftmost
non-overlapping matches, replacements are not rescanned. -/
def replaceAllCS (pat repl : List Char) : Nat → List Char → List Char
  | 0, cs => cs
  | _ + 1, [] => []
  | fuel + 1, c :: rest =>
    if pat ≠ [] ∧ pat.isPrefixOf (c :: rest) then
      repl ++ replaceAllCS pat repl fuel (List.drop pat.length (c :: rest))
    else
      c :: replaceAllCS pat repl fuel rest

/-- Whitespace trimming (`String.prototype.trim`). -/
def trimCS (cs : List Char) : List Char :=
  ((cs.dropWhile Char.isWhitespace).reverse.dropWhile Char.isWhitespace).reverse

def jsTrim (s : String) : String := String.mk (trimCS s.data)

/-- The cleanup of lines 142-148: the two anchored code-block removals,
the anchored plain code-fence removal, the global inline code-fence
replacement, then `trim()`. -/
def cleanupContent (s : String) : String :=
  let cs := s.data
  let cs := if ("```mdx\n".data).isPrefixOf cs then List.drop 7 cs
            else if ("```md\n".data).isPrefixOf cs then List.drop 6 cs
            else cs
  let cs := if ("\n```".data.reverse).isPrefixOf cs.reverse then (List.drop 4 cs.reverse).reverse
            else cs
  let cs := if ("```\n".data).isPrefixOf cs then List.drop 4 cs else cs
  let cs := replaceAllCS ("\n```\n".data) ("\n".data) (cs.length + 1) cs
  String.mk (trimCS cs)

/-- Fuel-based splitter with `String.prototype.split` semantics for a
non-empty separator. -/
def splitCS (sep : List Char) : Nat → List Char → List Char → List (List Char)
  | 0, cs, acc => [acc.reverse ++ cs]
  | _ + 1, [], acc => [acc.reverse]
  | fuel + 1, c :: rest, acc =>
    if sep ≠ [] ∧ sep.isPrefixOf (c :: rest) then
      acc.reverse :: splitCS sep fuel (List.drop sep.length (c :: rest)) []
    else
      splitCS sep fuel rest (c :: acc)

def jsSplit (s sep : String) : List String :=
  (splitCS sep.data (s.data.length + 1) s.data []).map String.mk

/-- Truthiness of a data field (`parsed.data['$type']` etc.). -/
def fieldTruthy (d : JSObj) (k : String) : Bool :=
  match getField d k with
  | some v => jsTruthy v
  | none => false

/-- The result of the `mdxld` `parse` call of line 152: frontmatter data
and the body. -/
structure Parsed2 where
  data : Option JSObj
  body : String
deriving Repr

/-- The data fix-up of lines 154-170: initialize missing data, default
the `$type` when neither prefix convention is present, and strip edge
quotes from both type values. -/
def chunk2FixData (ty : String) (d0 : Option JSObj) : JSObj :=
  let d := d0.getD []
  let d :=
    if fieldTruthy d "$type" = false ∧ fieldTruthy d "@type" = false then
      setField d "$type" (.str ty)
    else d
  let d :=
    match getField d "$type" with
    | some v => if jsTruthy v then setField d "$type" (.str (stripEdgeQuotes (jsToString v))) else d
    | none => d
  let d :=
    match getField d "@type" with
    | some v => if jsTruthy v then setField d "@type" (.str (stripEdgeQuotes (jsToString v))) else d
    | none => d
  d

/-- Modelled from the spec: the external `mdxld` `stringify` capability
(absent from `src/`; §1 and §4.1 describe it as converting a
`{metadata map, body}` document back to text with the metadata block
between `---` marker lines). Each stored string value is emitted
verbatim after `key: `, so serialization adds no quote characters. -/
def renderVal : JSValue → String
  | .str s => s
  | v => jsToString v

/-- Modelled from the spec: serialization of the document (see
`renderVal`). -/
def stringifyModel (d : JSObj) (body : String) : String :=
  "---\n" ++ joinWith "\n" (d.map (fun kv => kv.1 ++ ": " ++ renderVal kv.2)) ++
    "\n---\n" ++ body

/-- The test `line.trim().startsWith('$') || line.trim().startsWith('@')`
of line 181. -/
def startsDollarOrAt (t : String) : Bool :=
  match t.data with
  | c :: _ => c = '$' ∨ c = '@'
  | [] => false

/-- One line of the fallback frontmatter fixing (lines 179-191). -/
def fixYamlLine (line : String) : String :=
  let t := jsTrim line
  if startsDollarOrAt t then
    let parts := jsSplit t ":"
    let key := parts.headD ""
    let value := jsTrim (joinWith ":" parts.tail)
    if key = "$type" ∨ key = "@type" then
      key ++ ": " ++ stripEdgeQuotes value
    else
      key ++ ": \"" ++ value ++ "\""
  else line

/-- The fallback of lines 174-194 when parsing fails: split off the
frontmatter at the `---\n` markers, fix its lines, and reassemble. -/
def chunk2Fallback (content : String) : String :=
  let parts := jsSplit content "---\n"
  let frontmatter := parts.headD ""
  let rest := parts.tail
  let fixedFrontmatter := joinWith "\n" ((jsSplit frontmatter "\n").map fixYamlLine)
  "---\n" ++ fixedFrontmatter ++ "\n---\n" ++ joinWith "---\n" rest

/-- Lines 150-195: parse the cleaned content; on success fix the data
and re-stringify, on failure apply the YAML fallback fixing. -/
def chunk2Process (parseO : String → Except String Parsed2) (ty : String)
    (content : String) : String :=
  match parseO content with
  | .ok parsed => stringifyModel (chunk2FixData ty parsed.data) parsed.body
  | .error _ => chunk2Fallback content

/-- Outcome of the race of lines 126-133 between stream consumption and
the 10s timeout: either the stream completes after the given chunks, or
the race rejects with an error after the given chunks were accumulated
(the timeout rejection of line 123 carries the exact message
`'Stream timeout'`). -/
inductive StreamOutcome where
  | done (chunks : List String)
  | raced (chunks : List String) (e : JSError)

/-- Environment of the stream-based generator. -/
structure StreamEnv where
  outcome : StreamOutcome
  parse2 : String → Except String Parsed2
  finishReason : String
  usage : Nat

/-- The options the stream generator observes in the modelled region
(the remaining options only parameterize the prompt strings handed to
the stream oracle). -/
structure StreamOptions where
  type : String
  filepath : Option String
deriving Repr

/-- The caller-visible result (line 216-221; the live `stream` handle is
opaque and omitted). -/
structure StreamResult where
  text : String
  finishReason : String
  usage : Nat
deriving Repr, DecidableEq

/-- The stream-based `generateMDX` of lines 64-228. The catch of lines
134-140 tolerates exactly the `'Stream timeout'` message — logging a
warning and keeping the partial content — and rethrows everything else;
the outer catch of lines 222-227 logs and rethrows. The file write of
lines 197-210 is modelled as effect-free. -/
def generateMDXStream (env : StreamEnv) (opts : StreamOptions) :
    Except JSError StreamResult :=
  let raceResult : Except JSError String :=
    match env.outcome with
    | .done cs => .ok (joinWith "" cs)
    | .raced cs e =>
      if e.message = "Stream timeout" then .ok (joinWith "" cs) else .error e
  match raceResult with
  | .error e => .error e
  | .ok content0 =>
    let content1 := cleanupContent content0
    let content2 := chunk2Process env.parse2 opts.type content1
    .ok { text := content2, finishReason := env.finishReason, usage := env.usage }

/-- Whether a call completed without an escaping exception. -/
def exceptIsOk {α : Type} : Except JSError α → Bool
  | .ok _ => true
  | .error _ => false

/-! ## Claim C1 -/

/-- C1: for every invocation name, every content of the backing
specification file (reflected through an arbitrary parse outcome,
including failures and missing frontmatter), every configuration and
every generation outcome, the registry's invoke returns a result object
— possibly with its `error` field set — and never lets an exception
escape to the caller (`Except.error` would model an escaping
exception). -/
theorem registry_invoke_never_throws (env : ProxyEnv) (fnName : String) (args : JSObj) :
    ∃ out : InvokeOut, aiProxyInvoke env fnName args = .ok out :=
  ⟨aiProxyRun env fnName args, rfl⟩

/-! ## Claim C2 -/

/-- C2 (counterexample): contrary to the claim that every supplied
schema other than a top-level `array` selects the `object` shape, the
aiProxy selector rejects a supplied schema whose top-level type is the
scalar `string` with an error result instead of selecting `object`. -/
theorem output_shape_scalar_rejected :
    aiProxySelectShape (some (.mk (some "string") none none)) =
      .error "Invalid schema type: string. Must be \x27object\x27 or \x27array\x27" := rfl

/-- C2 (amended): the part_018 selector returns exactly one of
`object`/`array`/`freeform`, with `freeform` iff no schema was supplied,
`array` exactly when the top-level type is `array`, and `object` for
every other supplied schema (scalar types included). The aiProxy
variant instead rejects a supplied schema whose truthy top-level type is
neither `object` nor `array` with an error result, and treats a schema
without a truthy top-level `type` as if no schema had been supplied
(`no-schema`). -/
theorem output_shape_selection_amended :
    (∀ s : Option JSONSchema,
      (part018OutputType s = "object" ∨ part018OutputType s = "array" ∨
        part018OutputType s = "no-schema") ∧
      (part018OutputType s = "no-schema" ↔ s = none)) ∧
    (∀ sc : JSONSchema, sc.type = some "array" → part018OutputType (some sc) = "array") ∧
    (∀ sc : JSONSchema, sc.type ≠ some "array" → part018OutputType (some sc) = "object") ∧
    (∀ (sc : JSONSchema) (t : String), sc.type = some t → t ≠ "" → t ≠ "object" → t ≠ "array" →
      aiProxySelectShape (some sc) =
        .error ("Invalid schema type: " ++ t ++ ". Must be \x27object\x27 or \x27array\x27")) ∧
    (∀ sc : JSONSchema, sc.type = none → aiProxySelectShape (some sc) = .ok "no-schema") ∧
    aiProxySelectShape none = .ok "no-schema" := by
  refine ⟨?_, ?_, ?_, ?_, ?_, rfl⟩
  · intro s
    match s with
    | none => exact ⟨Or.inr (Or.inr rfl), by simp [part018OutputType]⟩
    | some sc =>
      by_cases h : sc.type = some "array"
      · refine ⟨Or.inr (Or.inl (by simp [part018OutputType, h])), ?_, by intro hx; cases hx⟩
        intro hx
        rw [part018OutputType, if_pos h] at hx
        exact absurd hx (by decide)
      · refine ⟨Or.inl (by simp [part018OutputType, h]), ?_, by intro hx; cases hx⟩
        intro hx
        rw [part018OutputType, if_neg h] at hx
        exact absurd hx (by decide)
  · intro sc h
    simp [part018OutputType, h]
  · intro sc h
    simp [part018OutputType, h]
  · intro sc t h ht h1 h2
    simp only [aiProxySelectShape, h]
    rw [if_pos ht, if_pos (by simp [h1, h2])]
  · intro sc h
    simp [aiProxySelectShape, h, aiProxyOutput]

/-- Witness: the amended selection rule evaluated at concrete schemas. -/
theorem output_shape_selection_instances :
    part018OutputType (some (.mk (some "array") none none)) = "array" ∧
    part018OutputType (some (.mk (some "string") none none)) = "object" ∧
    aiProxySelectShape (some (.mk (some "number") none none)) =
      .error ("Invalid schema type: " ++ "number" ++ ". Must be \x27object\x27 or \x27array\x27") ∧
    aiProxySelectShape (some (.mk none (some []) none)) = .ok "no-schema" :=
  ⟨output_shape_selection_amended.2.1 _ rfl,
   output_shape_selection_amended.2.2.1 _ (by decide),
   output_shape_selection_amended.2.2.2.1 _ "number" rfl (by decide) (by decide) (by decide),
   output_shape_selection_amended.2.2.2.2.1 _ rfl⟩

/-! ## Claim C5 -/

/-- C5 (counterexample): a specification whose parsed frontmatter lacks
the `model` field is not a `ConfigurationError` hard failure in the
aiProxy registry — the default model `gpt-4o-mini` is substituted and
one generation round trip is performed, returning a normal result. -/
def envC5 : ProxyEnv :=
  { isNode := true
    file := some "---\nsystem: prompt only\n---"
    mdxParse := fun _ => .ok (some { model := none, system := some "prompt only", schema := none })
    apiKey := some "test-key"
    baseURL := none
    envModel := none
    genOutcome := .ok (.obj [("content", .str "generated")]) }

/-- C5 (counterexample): see `envC5`. -/
theorem missing_model_default_substituted :
    aiProxyRun envC5 "summarize" [] =
      { result := [("content", .str "generated")]
        file := some "---\nsystem: prompt only\n---"
        calls := [{ output := "no-schema", model := "gpt-4o-mini" }] } := rfl

/-- C5 (amended): in the part_018 registry a parsed specification whose
`model` field is missing (or falsy) is a hard failure — invoke returns
an error result naming the missing frontmatter fields, performs no
generation round trip and substitutes no default — but the failure is a
plain `Error` converted at the invoke boundary, not a
`ConfigurationError`. In the aiProxy registry the absence of `model` is
not a failure at all: the configured default (`AI_MODEL` or
`gpt-4o-mini`) is substituted and the generation round trip proceeds. -/
theorem missing_model_amended :
    (∀ (env : Part018Env) (args : JSObj) (d : AIFunctionData),
      env.isNode = true →
      env.mdxParse (part018Content env.file) = .ok (some d) →
      jsTruthyStrO d.model = false →
      part018Run env args =
        { result := .obj [("error",
            .str "Failed to process AI function: Missing required frontmatter fields: model and system")]
          file := some (part018Content env.file)
          calls := [] }) ∧
    (∀ (env : ProxyEnv) (fnName : String) (args : JSObj) (d : AIFunctionData),
      env.isNode = true →
      env.mdxParse (proxyContent env.file) = .ok (some d) →
      d.model = none →
      d.schema = none →
      (jsTruthyStrO env.apiKey ∨ jsTruthyStrO env.baseURL) →
      (aiProxyRun env fnName args).calls =
        [{ output := "no-schema", model := jsOrStrO (some (jsOrStrO env.envModel "gpt-4o-mini")) "gpt-4o-mini" }]) := by
  constructor
  · intro env args d hnode hparse hmodel
    simp only [part018Run, part018Try, part018Main, hnode, hparse, hmodel]
    simp [JSError.message]
  · intro env fnName args d hnode hparse hmodel hschema hcfg
    have hniff : ¬ (jsTruthyStrO env.apiKey = false ∧ jsTruthyStrO env.baseURL = false) := by
      rcases hcfg with h | h <;> simp [h]
    simp only [aiProxyRun, aiProxyTry, aiProxyMain, hnode, hparse, hmodel, hschema]
    simp only [aiProxySelectShape, proxySelModel, hmodel, hschema]
    cases env.genOutcome with
    | error e => simp [hniff, aiProxyOutput]
    | ok response => simp [hniff, aiProxyOutput]

/-- Witness: the amended behaviour at concrete environments. -/
def envC5w : Part018Env :=
  { isNode := true
    file := some "---\nsystem: s\n---"
    mdxParse := fun _ => .ok (some { model := none, system := some "s", schema := none })
    genOutcome := .ok (.str "unused") }

/-- Witness for `missing_model_amended` at concrete inputs. -/
theorem missing_model_amended_instances :
    part018Run envC5w [] =
      { result := .obj [("error",
          .str "Failed to process AI function: Missing required frontmatter fields: model and system")]
        file := some (part018Content envC5w.file)
        calls := [] } ∧
    (aiProxyRun envC5 "summarize" []).calls =
      [{ output := "no-schema", model := jsOrStrO (some (jsOrStrO envC5.envModel "gpt-4o-mini")) "gpt-4o-mini" }] :=
  ⟨missing_model_amended.1 envC5w [] _ rfl rfl rfl,
   missing_model_amended.2 envC5 "summarize" [] _ rfl rfl rfl rfl (by left; decide)⟩

/-! ## Claim C7 -/

/-- C7: in both registries (Node runtime), when no specification file
exists at the conventional location, invoke creates it from the fixed
default template; when a file exists, its content is left unchanged, so
re-invoking the same name never overwrites it. -/
theorem registry_file_creation :
    (∀ (env : ProxyEnv) (fnName : String) (args : JSObj), env.isNode = true →
      (env.file = none →
        aiProxyFileAfter env fnName args = some DEFAULT_FRONTMATTER_PROXY) ∧
      (∀ c : String, env.file = some c → aiProxyFileAfter env fnName args = some c)) ∧
    (∀ (env : Part018Env) (args : JSObj), env.isNode = true →
      (env.file = none → part018FileAfter env args = some DEFAULT_FRONTMATTER_018) ∧
      (∀ c : String, env.file = some c → part018FileAfter env args = some c)) := by
  constructor
  · intro env fnName args hnode
    constructor
    · intro hfile
      simp [aiProxyFileAfter, aiProxyRun, aiProxyTry, hnode, hfile, proxyContent]
    · intro c hfile
      simp [aiProxyFileAfter, aiProxyRun, aiProxyTry, hnode, hfile, proxyContent]
  · intro env args hnode
    constructor
    · intro hfile
      simp only [part018FileAfter, part018Run, part018Try, hnode, hfile, part018Content,
        Bool.true_eq_false, if_false]
      split <;> rfl
    · intro c hfile
      simp only [part018FileAfter, part018Run, part018Try, hnode, hfile, part018Content,
        Bool.true_eq_false, if_false]
      split <;> rfl

/-- Witness environments for `registry_file_creation`. -/
def envC7a : ProxyEnv :=
  { isNode := true, file := none, mdxParse := fun _ => .ok none,
    apiKey := none, baseURL := none, envModel := none, genOutcome := .error "unused" }

def envC7b : Part018Env :=
  { isNode := true, file := some "existing specification",
    mdxParse := fun _ => .ok none, genOutcome := .error "unused" }

/-- Witness for `registry_file_creation` at concrete inputs. -/
theorem registry_file_creation_instances :
    aiProxyFileAfter envC7a "fn" [] = some DEFAULT_FRONTMATTER_PROXY ∧
    part018FileAfter envC7b [] = some "existing specification" :=
  ⟨(registry_file_creation.1 envC7a "fn" [] rfl).1 rfl,
   (registry_file_creation.2 envC7b [] rfl).2 "existing specification" rfl⟩

/-! ## Supporting lemmas about the chunk-3 generator -/

theorem mdxTemplate_ne_empty (p t m : String) : mdxTemplate p t m ≠ "" := by
  intro h
  have hlen := congrArg String.length h
  rw [mdxTemplate, String.length_append, String.length_append] at hlen
  have h1 : ("\n" : String).length = 1 := rfl
  have h0 : ("" : String).length = 0 := rfl
  rw [h1, h0] at hlen
  omega

theorem generateOutline_calls (env : GenEnv) (k : Nat) (p t : String) (m : Option String)
    (d : Nat) (h : configOk env = true) :
    (generateOutline env k p t m d).2 = [CallKind.outline] := by
  unfold generateOutline
  rw [if_neg (by simp [h])]
  dsimp only
  split
  · rfl
  · split <;> rfl

theorem directGen_calls (env : GenEnv) (k : Nat) (p t sm : String)
    (o : Option (List OutlineItem)) :
    (directGen env k p t sm o).2 = [CallKind.content] := by
  unfold directGen
  dsimp only
  split
  · rfl
  split
  · rfl
  split
  · rfl
  split <;> rfl

theorem generateMDXFalse_calls (env : GenEnv) (k : Nat) (p t : String)
    (m : Option String) (h : configOk env = true) :
    (generateMDXFalse env k p t m).2 = [CallKind.content] := by
  unfold generateMDXFalse
  rw [if_neg (by simp [h])]
  exact directGen_calls env k p t (selModel m) none

theorem generateMDXFalse_content (env : GenEnv) (k : Nat) (p t : String)
    (m : Option String) (r : GenResult)
    (h : (generateMDXFalse env k p t m).1 = .ok r) :
    r.content = mdxTemplate p t (selModel m) := by
  unfold generateMDXFalse directGen at h
  dsimp only at h
  split at h
  · simp at h
  · split at h
    · simp at h
    split at h
    · simp at h
    split at h
    · simp at h
    split at h
    · simp at h
    · simp at h
      rw [← h]

/-! ## Claim C3 -/

/-- C3: with `recursive=true` and `depth >= 1`, a `generateMDX` call
performs at most one outline backend call and at most one subsequent
content-generation backend call, in that order (the sub-call is made
with `recursive` forced to `false` — see `generateMDX_false_eq` — so the
pipeline never re-enters the outline phase). -/
theorem recursion_depth_bounded (env : GenEnv) (k : Nat) (opts : GenOptions)
    (hrec : opts.recursive = true) (hd : 1 ≤ opts.depth) :
    (generateMDX env k opts).2 = [] ∨
    (generateMDX env k opts).2 = [CallKind.outline] ∨
    (generateMDX env k opts).2 = [CallKind.outline, CallKind.content] := by
  unfold generateMDX
  split
  · left; rfl
  · rename_i hnc
    have hc : configOk env = true := by
      by_contra hx
      exact hnc (by simp [Bool.not_eq_true] at hx; simp [hx])
    rw [hrec]
    have hoc := generateOutline_calls env k opts.prompt opts.type opts.model opts.depth hc
    cases ho : (generateOutline env k opts.prompt opts.type opts.model opts.depth).1 with
    | error e =>
      right; left
      simp only [ho, hoc]
    | ok outlineVal =>
      cases outlineVal with
      | none =>
        right; right
        simp only [ho, hoc, directGen_calls]
        rfl
      | some items =>
        simp only [ho, hoc]
        cases hs : (generateMDXFalse env (k + [CallKind.outline].length)
            ("Generate detailed MDX content following this outline:\n\n" ++ outlineText items)
            opts.type opts.model).1 with
        | error e =>
          right; right
          simp only [hs, generateMDXFalse_calls _ _ _ _ _ hc]
          rfl
        | ok subr =>
          have hne : subr.content ≠ "" := by
            rw [generateMDXFalse_content _ _ _ _ _ _ hs]
            exact mdxTemplate_ne_empty _ _ _
          right; right
          simp only [hs, generateMDXFalse_calls _ _ _ _ _ hc, if_neg hne]
          rfl

/-- Witness environment for the recursion bound. -/
def envC3 : GenEnv :=
  { apiKey := some "test-key", baseURL := none,
    backend := fun _ => some "outline json text",
    jsonParse := fun _ => .ok (some [{ title := "Intro", description := none }]),
    mdxldParse := fun _ => .ok { type := "root", data := none, children := [] } }

def optsC3 : GenOptions :=
  { prompt := "testing", model := none, type := "Article", recursive := true, depth := 2 }

/-- Witness for `recursion_depth_bounded` at a concrete input. -/
theorem recursion_depth_bounded_instance :
    (generateMDX envC3 0 optsC3).2 = [] ∨
    (generateMDX envC3 0 optsC3).2 = [CallKind.outline] ∨
    (generateMDX envC3 0 optsC3).2 = [CallKind.outline, CallKind.content] :=
  recursion_depth_bounded envC3 0 optsC3 rfl (by decide)

/-! ## Claim C4 -/

/-- C4 (counterexample): when the backend returns empty text for the
outline, the failure is the plain `Error('Failed to generate outline')`
of line 365, not a `GenerationError` as the claim states. -/
def envC4 : GenEnv :=
  { apiKey := some "test-key", baseURL := none,
    backend := fun _ => some "",
    jsonParse := fun _ => .error "unexpected",
    mdxldParse := fun _ => .ok { type := "root", data := none, children := [] } }

def optsC4 : GenOptions :=
  { prompt := "topic", model := none, type := "Article", recursive := true, depth := 1 }

/-- C4 (counterexample): see `envC4` — the outline step's empty-text
failure is not a `GenerationError`. -/
theorem outline_empty_error_kind :
    (generateMDX envC4 0 optsC4).1 = .error (.generic "Failed to generate outline") ∧
    errIsGeneration (generateMDX envC4 0 optsC4).1 = false := ⟨rfl, rfl⟩

/-- C4 (amended): the outline step fails with a plain `Error` (not a
`GenerationError`) when the backend returns empty text, and with a
`ParsingError` when the returned text is not valid JSON; in the
`ParsingError` case the whole `recursive=true` call fails and no
expansion call is made (exactly one backend call happened). -/
theorem outline_failure_modes_amended (env : GenEnv) (k : Nat) (opts : GenOptions)
    (hrec : opts.recursive = true) (hc : configOk env = true) :
    (jsTruthyStrO (env.backend k) = false →
      generateMDX env k opts =
        (.error (.generic "Failed to generate outline"), [CallKind.outline])) ∧
    (∀ (t : String) (e : String), env.backend k = some t → t ≠ "" →
      env.jsonParse t = .error e →
      generateMDX env k opts =
        (.error (.parsing ("Failed to parse outline JSON: " ++ e)), [CallKind.outline])) := by
  constructor
  · intro hb
    have ho : generateOutline env k opts.prompt opts.type opts.model opts.depth =
        (.error (.generic "Failed to generate outline"), [CallKind.outline]) := by
      unfold generateOutline
      rw [if_neg (by simp [hc]), if_pos (by simp [hb])]
    unfold generateMDX
    rw [if_neg (by simp [hc]), hrec, ho]
  · intro t e hbk ht hjp
    have ho : generateOutline env k opts.prompt opts.type opts.model opts.depth =
        (.error (.parsing ("Failed to parse outline JSON: " ++ e)), [CallKind.outline]) := by
      unfold generateOutline
      rw [if_neg (by simp [hc]), hbk]
      rw [if_neg (by simp [jsTruthyStrO, ht])]
      simp only [Option.getD_some, hjp]
    unfold generateMDX
    rw [if_neg (by simp [hc]), hrec, ho]

/-- Witness environment: the outline backend returns unparseable text. -/
def envC4json : GenEnv :=
  { apiKey := some "test-key", baseURL := none,
    backend := fun _ => some "not json",
    jsonParse := fun _ => .error "bad json",
    mdxldParse := fun _ => .ok { type := "root", data := none, children := [] } }

/-- Witness for `outline_failure_modes_amended` at concrete inputs. -/
theorem outline_failure_modes_instances :
    generateMDX envC4 0 optsC4 =
      (.error (.generic "Failed to generate outline"), [CallKind.outline]) ∧
    generateMDX envC4json 0 optsC4 =
      (.error (.parsing ("Failed to parse outline JSON: " ++ "bad json")), [CallKind.outline]) :=
  ⟨(outline_failure_modes_amended envC4 0 optsC4 rfl rfl).1 rfl,
   (outline_failure_modes_amended envC4json 0 optsC4 rfl rfl).2 "not json" "bad json"
     rfl (by decide) rfl⟩

/-! ## Claim C10 -/

/-- C10: a successful non-recursive `generateMDX` call returns content
equal to a fixed template determined by the prompt, type and selected
model alone — the backend text never appears in it (the backend call
only gates success: empty text still fails the call). This holds for
both the chunk-3 generator and the `src/index.ts` generator. -/
theorem content_template_determinism :
    (∀ (env : GenEnv) (k : Nat) (opts : GenOptions), opts.recursive = false →
      (∀ r : GenResult, (generateMDX env k opts).1 = .ok r →
        r.content = mdxTemplate opts.prompt opts.type (selModel opts.model)) ∧
      (configOk env = true → jsTruthyStrO (env.backend k) = false →
        (generateMDX env k opts).1 =
          .error (.generation "Failed to generate MDX content"))) ∧
    (∀ (env : IndexEnv) (k : Nat) (prompt ty : String) (m : Option String),
      (∀ r : IndexResult, (indexGenerateMDXFalse env k prompt ty m).1 = .ok r →
        r.content = indexTemplate prompt ty
          (match m with | some s => s | none => jsOrStrO env.envModel "gpt-4o-mini")) ∧
      ((jsTruthyStrO env.apiKey || jsTruthyStrO env.gateway) = true →
        jsTruthyStrO (env.backend k) = false →
        (indexGenerateMDXFalse env k prompt ty m).1 =
          .error (.generic "Failed to generate MDX content"))) := by
  constructor
  · intro env k opts hrec
    have heq : generateMDX env k opts =
        generateMDXFalse env k opts.prompt opts.type opts.model := by
      unfold generateMDX generateMDXFalse
      rw [hrec]
    constructor
    · intro r h
      rw [heq] at h
      exact generateMDXFalse_content _ _ _ _ _ _ h
    · intro hc hb
      rw [heq]
      unfold generateMDXFalse directGen
      rw [if_neg (by simp [hc]), if_pos (by simp [hb])]
  · intro env k prompt ty m
    constructor
    · intro r h
      unfold indexGenerateMDXFalse at h
      dsimp only at h
      split at h
      · simp at h
      · split at h
        · simp at h
        split at h
        · simp at h
        split at h
        · simp at h
        · simp at h
          rw [← h]
    · intro hcfg hb
      unfold indexGenerateMDXFalse
      rw [if_neg (by simp [hcfg]), if_pos (by simp [hb])]

/-- Witness environment: the backend text is nonempty but arbitrary; the
content below does not mention it. -/
def envC10 : GenEnv :=
  { apiKey := some "test-key", baseURL := none,
    backend := fun _ => some "ANY BACKEND TEXT",
    jsonParse := fun _ => .error "unused",
    mdxldParse := fun _ =>
      .ok { type := "root", data := none, children := [{ type := "heading", value := "h" }] } }

def optsC10 : GenOptions :=
  { prompt := "testing", model := none, type := "Article", recursive := false, depth := 1 }

def envC10empty : GenEnv :=
  { apiKey := some "test-key", baseURL := none,
    backend := fun _ => none,
    jsonParse := fun _ => .error "unused",
    mdxldParse := fun _ => .ok { type := "root", data := none, children := [] } }

/-- The concrete result of the witness run: the backend text
`"ANY BACKEND TEXT"` appears nowhere in it. -/
def rC10 : GenResult :=
  { progressMessage := "Generating MDX\n",
    content := mdxTemplate "testing" "Article" (selModel none),
    ast := some { type := "root",
                  data := some (baseDataFor "Article" (selModel none)),
                  children := [{ type := "heading", value := "h" }] },
    outline := none, progress := 100 }

/-- Witness for `content_template_determinism` at concrete inputs. -/
theorem content_template_determinism_instances :
    ((generateMDX envC10 0 optsC10).1 = .ok rC10 ∧
      rC10.content = mdxTemplate "testing" "Article" (selModel none)) ∧
    (generateMDX envC10empty 0 optsC10).1 =
      .error (.generation "Failed to generate MDX content") :=
  ⟨⟨rfl, (content_template_determinism.1 envC10 0 optsC10 rfl).1 rC10 rfl⟩,
   (content_template_determinism.1 envC10empty 0 optsC10 rfl).2 rfl rfl⟩

/-! ## Claim C6 -/

/-- C6: every document the synthesis step produces carries both prefix
variants of the type and context identifiers and the fixed metadata
sub-object with its keywords sequence, category and
`properties.version` / `properties.generator` values derived from the
type and model. -/
theorem synthesis_metadata_keys (parseO : String → Except JSError MDXAst)
    (ast : MDXAst) (ty model content : String) (r : MDXAst)
    (h : initializeASTData parseO ast ty model content = .ok r) :
    dataField r "$type" = some (.str ("https://schema.org/" ++ ty)) ∧
    dataField r "@type" = some (.str ("https://schema.org/" ++ ty)) ∧
    dataField r "$context" = some (.str "https://schema.org") ∧
    dataField r "@context" = some (.str "https://schema.org") ∧
    dataField r "metadata" = some (.obj
      [("keywords", .arr [.str ty.toLower, .str "mdx", .str "content"]),
       ("category", .str ty),
       ("properties", .obj [("version", .str "1.0.0"),
                            ("generator", .str ("mdxai-" ++ model))])]) := by
  have hr : r.data = some (match ast.data with
      | some d => mergeObj d (baseDataFor ty model)
      | none => baseDataFor ty model) := by
    unfold initializeASTData at h
    dsimp only at h
    split at h
    · cases h; rfl
    · split at h
      · simp at h
      · split at h <;> (cases h; rfl)
  have hfield : ∀ (k : String) (v : JSValue),
      getField (baseDataFor ty model) k = some v → dataField r k = some v := by
    intro k v hkv
    unfold dataField
    rw [hr]
    cases hd : ast.data with
    | none => simpa using hkv
    | some d =>
      simp only [Option.bind_some]
      exact getField_mergeObj d _ k v hkv
  exact ⟨hfield _ _ rfl, hfield _ _ rfl, hfield _ _ rfl, hfield _ _ rfl, hfield _ _ rfl⟩

/-- Witness inputs for the synthesis claim. -/
def c6Ast : MDXAst := { type := "root", data := none, children := [] }

def c6ParseO : String → Except JSError MDXAst := fun _ => .ok c6Ast

def c6Result : MDXAst :=
  { type := "root", data := some (baseDataFor "Article" "gpt-4o-mini"),
    children := [{ type := "text", value := "hello" }] }

/-! ## Claim C8 -/

/-- C8 (counterexample): the per-step timeout firing during streamed
generation does not surface as a failure of any kind to the caller —
the call completes with `.ok`, carrying the text built from the partial
chunks; the only surfacing is a console warning (line 136). -/
def envC8 : StreamEnv :=
  { outcome := .raced ["# Partial", " content"] (.generic "Stream timeout")
    parse2 := fun _ => .error "not parseable"
    finishReason := "length"
    usage := 42 }

/-- C8 (counterexample): see `envC8`. -/
theorem stream_timeout_not_a_failure :
    generateMDXStream envC8 { type := "Article", filepath := none } =
      .ok { text := chunk2Fallback (cleanupContent (joinWith "" ["# Partial", " content"])),
            finishReason := "length", usage := 42 } ∧
    exceptIsOk (generateMDXStream envC8 { type := "Article", filepath := none }) = true :=
  ⟨rfl, rfl⟩

/-- C8 (amended): the timeout is distinguished from every other stream
error by its exact `'Stream timeout'` message — any other error
propagates as a failure of the call — and when the timeout fires the
call completes successfully, returning the processed partial streamed
output accumulated up to that point rather than discarding it (the
timeout itself is only logged as a warning, not surfaced as a
failure). -/
theorem stream_timeout_amended :
    (∀ (env : StreamEnv) (opts : StreamOptions) (cs : List String),
      env.outcome = .raced cs (.generic "Stream timeout") →
      generateMDXStream env opts =
        .ok { text := chunk2Process env.parse2 opts.type (cleanupContent (joinWith "" cs)),
              finishReason := env.finishReason, usage := env.usage }) ∧
    (∀ (env : StreamEnv) (opts : StreamOptions) (cs : List String) (e : JSError),
      env.outcome = .raced cs e → e.message ≠ "Stream timeout" →
      generateMDXStream env opts = .error e) := by
  constructor
  · intro env opts cs h
    unfold generateMDXStream
    rw [h]
    rfl
  · intro env opts cs e h hm
    unfold generateMDXStream
    rw [h]
    dsimp only
    simp [hm]

/-- Witness environment: a stream error other than the timeout. -/
def envC8b : StreamEnv :=
  { outcome := .raced ["partial"] (.generic "network down")
    parse2 := fun _ => .error "x", finishReason := "error", usage := 0 }

/-- Witness for `stream_timeout_amended` at concrete inputs. -/
theorem stream_timeout_amended_instances :
    generateMDXStream envC8 { type := "Article", filepath := none } =
      .ok { text := chunk2Process envC8.parse2 "Article"
              (cleanupContent (joinWith "" ["# Partial", " content"])),
            finishReason := envC8.finishReason, usage := envC8.usage } ∧
    generateMDXStream envC8b { type := "Article", filepath := none } =
      .error (.generic "network down") :=
  ⟨stream_timeout_amended.1 envC8 _ ["# Partial", " content"] rfl,
   stream_timeout_amended.2 envC8b _ ["partial"] (.generic "network down") rfl (by decide)⟩

/-! ## Claim C9 -/

/-- The edge-quote stripping removes a surrounding quote pair. -/
theorem stripEdgeQuotes_surround (q qq : Char) (v : String)
    (hq : isQuoteChar q = true) (hqq : isQuoteChar qq = true) :
    stripEdgeQuotes (String.mk (q :: (v.data ++ [qq]))) = v := by
  obtain ⟨l⟩ := v
  simp only [stripEdgeQuotes, dropLeadQuote, hq, if_true]
  rw [List.reverse_append]
  simp only [List.reverse_cons, List.reverse_nil, List.nil_append, List.singleton_append]
  simp only [dropLeadQuote, hqq, if_true, List.reverse_reverse]

/-- C9: a type value surrounded by quote characters (under either prefix
convention) has the quotes stripped by the parse-path fix-up, and
re-serialization emits the stored value verbatim, never re-adding quotes
(the serializer is the spec-modelled external capability, see
`renderVal`). -/
theorem type_quote_stripping (ty : String) (d : JSObj) (s v : String) (q qq : Char)
    (hq : isQuoteChar q = true) (hqq : isQuoteChar qq = true)
    (hs : s.data = q :: (v.data ++ [qq])) :
    (getField d "$type" = some (.str s) →
      getField (chunk2FixData ty (some d)) "$type" = some (.str v)) ∧
    (getField d "@type" = some (.str s) →
      getField (chunk2FixData ty (some d)) "@type" = some (.str v)) ∧
    renderVal (.str v) = v := by
  have hsne : s ≠ "" := by
    intro h0
    rw [h0] at hs
    simp at hs
  have hstrip : stripEdgeQuotes s = v := by
    have hsmk : s = String.mk (q :: (v.data ++ [qq])) := by
      cases s with
      | mk l => cases hs; rfl
    rw [hsmk]
    exact stripEdgeQuotes_surround q qq v hq hqq
  have hne : ("@type" : String) ≠ "$type" := by decide
  have hne2 : ("$type" : String) ≠ "@type" := by decide
  refine ⟨?_, ?_, rfl⟩
  · intro hT
    have htrue : fieldTruthy d "$type" = true := by
      simp [fieldTruthy, hT, jsTruthy, hsne]
    unfold chunk2FixData
    simp only [Option.getD_some]
    rw [if_neg (by simp [htrue])]
    rw [hT]
    dsimp only [jsToString]
    rw [if_pos (by simp [jsTruthy, hsne]), hstrip]
    cases hAt : getField (setField d "$type" (.str v)) "@type" with
    | none =>
      simp only [hAt]
      exact getField_setField_same d "$type" (.str v)
    | some w =>
      simp only [hAt]
      by_cases hw : jsTruthy w = true
      · rw [if_pos hw, getField_setField_other _ _ _ _ hne]
        exact getField_setField_same d "$type" (.str v)
      · rw [if_neg hw]
        exact getField_setField_same d "$type" (.str v)
  · intro hT
    have htrue : fieldTruthy d "@type" = true := by
      simp [fieldTruthy, hT, jsTruthy, hsne]
    unfold chunk2FixData
    simp only [Option.getD_some]
    rw [if_neg (by simp [htrue])]
    cases hD : getField d "$type" with
    | none =>
      simp only [hD]
      rw [hT]
      dsimp only [jsToString]
      rw [if_pos (by simp [jsTruthy, hsne]), hstrip]
      exact getField_setField_same d "@type" (.str v)
    | some w =>
      simp only [hD]
      by_cases hw : jsTruthy w = true
      · rw [if_pos hw]
        have hT2 : getField (setField d "$type" (.str (stripEdgeQuotes (jsToString w))))
            "@type" = some (.str s) := by
          rw [getField_setField_other _ _ _ _ hne2]
          exact hT
        rw [hT2]
        dsimp only [jsToString]
        rw [if_pos (by simp [jsTruthy, hsne]), hstrip]
        exact getField_setField_same _ "@type" (.str v)
      · rw [if_neg hw]
        rw [hT]
        dsimp only [jsToString]
        rw [if_pos (by simp [jsTruthy, hsne]), hstrip]
        exact getField_setField_same d "@type" (.str v)

/-- Witness data: a quoted type value under the `$` prefix. -/
def c9Data : JSObj := [("$type", .str "\x27Article\x27"), ("title", .str "T")]

/-- Witness for `type_quote_stripping` at concrete inputs. -/
theorem type_quote_stripping_instance :
    getField (chunk2FixData "Article" (some c9Data)) "$type" = some (.str "Article") :=
  (type_quote_stripping "Article" c9Data "\x27Article\x27" "Article"
    (Char.ofNat 39) (Char.ofNat 39) (by decide) (by decide) (by decide)).1 rfl

/-- Witness for `synthesis_metadata_keys` at concrete inputs. -/
theorem synthesis_metadata_keys_instance :
    dataField c6Result "$type" = some (.str ("https://schema.org/" ++ "Article")) ∧
    dataField c6Result "@type" = some (.str ("https://schema.org/" ++ "Article")) ∧
    dataField c6Result "$context" = some (.str "https://schema.org") ∧
    dataField c6Result "@context" = some (.str "https://schema.org") ∧
    dataField c6Result "metadata" = some (.obj
      [("keywords", .arr [.str ("Article".toLower), .str "mdx", .str "content"]),
       ("category", .str "Article"),
       ("properties", .obj [("version", .str "1.0.0"),
                            (("generator", .str ("mdxai-" ++ "gpt-4o-mini")))])]) :=
  synthesis_metadata_keys c6ParseO c6Ast "Article" "gpt-4o-mini" "hello" c6Result rfl

end Mdxai
